import Mathlib

/-
  Verification development for the browser-agent-extension repository.

  Shallow embedding of:
  - the RPC bridge of src/mcp-server/src/index.ts (sendToExtension, the
    WebSocket message/close handlers, the tool-call handler);
  - the CDP transport and Page controller of
    src/extension/src/cdp/transport.ts (attach, detach, send, handleDetach,
    clickAt, clickElement, selectOption, the injected console-log collector);
  - the action executor of src/extension/src/background/index.ts
    (navigate and screenshot cases of executeAction).

  Machine integers do not overflow in the modelled code paths, so counters
  are Nat. Asynchronous settlement is modelled as an explicit event-driven
  state machine: each JavaScript callback body runs atomically on the single
  event loop, so one callback body is one step.
-/

set_option maxRecDepth 8192

namespace BrowserAgent

/- ================= RPC BRIDGE (src/mcp-server/src/index.ts) ============= -/

/-- One value of pendingRequests: the resolver and rejecter are represented
by the settlement log below; the armed timer duration is recorded here.
The source arms every timer with the literal 30000 (line 44). -/
structure PendingEntry where
  action : String
  timeoutMs : Nat
deriving Repr, DecidableEq

/-- How a pending request was settled: resolve with payload.data, reject
with an error message from payload.error, or reject on timer expiry. -/
inductive Settlement where
  | resolved (data : String)
  | rejected (msg : String)
  | timedOut (msg : String)
deriving Repr, DecidableEq

/-- Module-level state of the MCP server bridge: extensionClient slot,
requestIdCounter, the pendingRequests map (keyed by the numeric part of
the req_n id; the wire id is reqId below), and a log of settlements.
A settlement record is appended exactly when a pending entry is deleted
and its promise resolved or rejected. -/
structure BridgeState where
  client : Option Nat
  counter : Nat
  pending : List (Nat × PendingEntry)
  settled : List (Nat × Settlement)
deriving Repr, DecidableEq

/-- Fresh process state: extensionClient = null, requestIdCounter = 0,
empty pending map. -/
def initialBridge : BridgeState := ⟨none, 0, [], []⟩

/-- Wire format of a correlation id: req_<n>. -/
def reqId (n : Nat) : String := "req_" ++ toString n

/-- pendingRequests.get: lookup by key in the map. -/
def findEntry : List (Nat × PendingEntry) → Nat → Option PendingEntry
  | [], _ => none
  | (k, v) :: rest, id => if k = id then some v else findEntry rest id

/-- pendingRequests.delete: remove the entry with the given key. -/
def removeEntry : List (Nat × PendingEntry) → Nat → List (Nat × PendingEntry)
  | [], _ => []
  | (k, v) :: rest, id => if k = id then rest else (k, v) :: removeEntry rest id

/-- The message a rejected caller sees: payload.error with the JavaScript
fallback (message.payload.error || "Unknown error"), where an absent or
empty (falsy) string falls back. -/
def errMsgOf : Option String → String
  | some e => if e = "" then "Unknown error" else e
  | none => "Unknown error"

/-- Immediate outcome of calling sendToExtension: synchronous rejection
with the connection error, or a request transmitted under a fresh id. -/
inductive CallStart where
  | connectionError (msg : String)
  | requested (id : Nat)
deriving Repr, DecidableEq

/-- Message shown when no extension client is connected. -/
def noPeerMsg : String :=
  "Browser extension not connected. Please open the extension side panel."

/-- sendToExtension (index.ts lines 36-60): with no open client it throws
before creating any pending entry; otherwise it increments the counter,
registers a pending entry with a 30000 ms timer, and transmits the
Request envelope under the fresh id. -/
def sendToExtension (s : BridgeState) (action : String) : CallStart × BridgeState :=
  match s.client with
  | none => (.connectionError noPeerMsg, s)
  | some _ =>
    let id := s.counter + 1
    (.requested id,
     { s with counter := id, pending := (id, ⟨action, 30000⟩) :: s.pending })

/-- The RESPONSE branch of the ws message handler (lines 263-275): look the
id up; if absent, nothing happens; if present, clear the timer, delete the
entry and settle according to payload.success. -/
def handleResponse (s : BridgeState) (id : Nat) (success : Bool)
    (data : String) (err : Option String) : BridgeState :=
  match findEntry s.pending id with
  | none => s
  | some _ =>
    { s with
      pending := removeEntry s.pending id,
      settled := (id, if success then Settlement.resolved data
                      else Settlement.rejected (errMsgOf err)) :: s.settled }

/-- Expiry of the 30-second timer armed for one id (lines 44-47). The timer
body deletes the entry and rejects with "Request timeout: <action>". It can
only run while the timer is still armed; the timer is cleared exactly when
the response path removes the entry, so an armed timer is equivalent to
membership in the pending map. -/
def fireTimeout (s : BridgeState) (id : Nat) : BridgeState :=
  match findEntry s.pending id with
  | none => s
  | some entry =>
    { s with
      pending := removeEntry s.pending id,
      settled := (id, Settlement.timedOut ("Request timeout: " ++ entry.action))
                 :: s.settled }

/-- The wss connection handler (line 257): a new connection replaces the
slot unconditionally. -/
def handleConnect (s : BridgeState) (c : Nat) : BridgeState :=
  { s with client := some c }

/-- The ws close handler (lines 281-286): the slot is cleared only when the
closing socket is still the registered one. -/
def handleClose (s : BridgeState) (c : Nat) : BridgeState :=
  if s.client = some c then { s with client := none } else s

/-- Events of one bridge lifetime, each corresponding to one atomic
callback body on the Node event loop. -/
inductive BridgeEvent where
  | connect (c : Nat)
  | close (c : Nat)
  | call (action : String)
  | response (id : Nat) (success : Bool) (data : String) (err : Option String)
  | timeout (id : Nat)
deriving Repr, DecidableEq

/-- One event-loop step of the bridge. -/
def stepBridge (s : BridgeState) : BridgeEvent → BridgeState
  | .connect c => handleConnect s c
  | .close c => handleClose s c
  | .call a => (sendToExtension s a).2
  | .response id su d e => handleResponse s id su d e
  | .timeout id => fireTimeout s id

/-- The bridge state after a sequence of events from process start. -/
def runBridge (evs : List BridgeEvent) : BridgeState :=
  evs.foldl stepBridge initialBridge

/- ---------------- bridge map lemmas ---------------- -/

theorem findEntry_eq_none {l : List (Nat × PendingEntry)} {id : Nat} :
    findEntry l id = none ↔ id ∉ l.map Prod.fst := by
  induction l with
  | nil => simp [findEntry]
  | cons p rest ih =>
    obtain ⟨k, v⟩ := p
    by_cases h : k = id
    · subst h
      simp [findEntry]
    · simp [findEntry, h, ih, Ne.symm h]

theorem findEntry_some_mem {l : List (Nat × PendingEntry)} {id : Nat}
    {e : PendingEntry} (h : findEntry l id = some e) : (id, e) ∈ l := by
  induction l with
  | nil => simp [findEntry] at h
  | cons p rest ih =>
    obtain ⟨k, v⟩ := p
    by_cases hk : k = id
    · subst hk
      simp [findEntry] at h
      simp [h]
    · simp [findEntry, hk] at h
      exact List.mem_cons_of_mem _ (ih h)

theorem removeEntry_sublist (l : List (Nat × PendingEntry)) (id : Nat) :
    List.Sublist (removeEntry l id) l := by
  induction l with
  | nil => simp [removeEntry]
  | cons p rest ih =>
    obtain ⟨k, v⟩ := p
    by_cases hk : k = id
    · simp [removeEntry, hk]
    · simpa [removeEntry, hk] using ih.cons₂ (k, v)

theorem mem_keys_removeEntry {l : List (Nat × PendingEntry)} {id k : Nat}
    (h : k ∈ (removeEntry l id).map Prod.fst) : k ∈ l.map Prod.fst :=
  ((removeEntry_sublist l id).map Prod.fst).subset h

theorem not_mem_keys_removeEntry {l : List (Nat × PendingEntry)} {id : Nat}
    (hnd : (l.map Prod.fst).Nodup) : id ∉ (removeEntry l id).map Prod.fst := by
  induction l with
  | nil => simp [removeEntry]
  | cons p rest ih =>
    obtain ⟨k, v⟩ := p
    simp only [List.map_cons, List.nodup_cons] at hnd
    by_cases hk : k = id
    · subst hk
      simpa [removeEntry] using hnd.1
    · simp only [removeEntry, hk, if_false, List.map_cons, List.mem_cons]
      push_neg
      exact ⟨fun h => (hk h.symm).elim, ih hnd.2⟩

theorem mem_removeEntry {l : List (Nat × PendingEntry)} {id : Nat}
    {p : Nat × PendingEntry} (h : p ∈ removeEntry l id) : p ∈ l :=
  (removeEntry_sublist l id).subset h

/-- Invariant of reachable bridge states. -/
structure BridgeInv (s : BridgeState) : Prop where
  pending_le : ∀ k ∈ s.pending.map Prod.fst, k ≤ s.counter
  settled_le : ∀ k ∈ s.settled.map Prod.fst, k ≤ s.counter
  pending_nodup : (s.pending.map Prod.fst).Nodup
  settled_nodup : (s.settled.map Prod.fst).Nodup
  disjoint : ∀ k ∈ s.settled.map Prod.fst, k ∉ s.pending.map Prod.fst
  timeout_ms : ∀ p ∈ s.pending, p.2.timeoutMs = 30000

theorem bridgeInv_initial : BridgeInv initialBridge := by
  constructor <;> simp [initialBridge]

theorem bridgeInv_step {s : BridgeState} (h : BridgeInv s) (e : BridgeEvent) :
    BridgeInv (stepBridge s e) := by
  cases e with
  | connect c =>
    exact ⟨h.pending_le, h.settled_le, h.pending_nodup, h.settled_nodup,
      h.disjoint, h.timeout_ms⟩
  | close c =>
    simp only [stepBridge, handleClose]
    by_cases hc : s.client = some c
    · simp only [hc, if_pos rfl]
      exact ⟨h.pending_le, h.settled_le, h.pending_nodup, h.settled_nodup,
        h.disjoint, h.timeout_ms⟩
    · simp only [if_neg hc]
      exact h
  | call a =>
    simp only [stepBridge, sendToExtension]
    cases hc : s.client with
    | none => exact h
    | some c =>
      constructor
      · intro k hk
        simp only [List.map_cons, List.mem_cons] at hk
        rcases hk with hk | hk
        · simp [hk]
        · exact Nat.le_succ_of_le (h.pending_le k hk)
      · intro k hk
        exact Nat.le_succ_of_le (h.settled_le k hk)
      · refine List.Nodup.cons ?_ h.pending_nodup
        intro hmem
        exact absurd (h.pending_le _ hmem) (Nat.not_le.mpr (Nat.lt_succ_self _))
      · exact h.settled_nodup
      · intro k hk
        simp only [List.map_cons, List.mem_cons]
        push_neg
        refine ⟨?_, h.disjoint k hk⟩
        intro hkc
        exact absurd (h.settled_le k hk)
          (by simp [hkc, Nat.lt_succ_self])
      · intro p hp
        rcases List.mem_cons.mp hp with hp | hp
        · simp [hp]
        · exact h.timeout_ms p hp
  | response id su d er =>
    simp only [stepBridge, handleResponse]
    cases hf : findEntry s.pending id with
    | none => exact h
    | some entry =>
      have hidmem : id ∈ s.pending.map Prod.fst :=
        List.mem_map.mpr ⟨(id, entry), findEntry_some_mem hf, rfl⟩
      have hidns : id ∉ s.settled.map Prod.fst := by
        intro hc
        exact h.disjoint id hc hidmem
      constructor
      · intro k hk
        exact h.pending_le k (mem_keys_removeEntry hk)
      · intro k hk
        simp only [List.map_cons, List.mem_cons] at hk
        rcases hk with hk | hk
        · exact hk ▸ h.pending_le id hidmem
        · exact h.settled_le k hk
      · exact (((removeEntry_sublist s.pending id).map Prod.fst).nodup h.pending_nodup)
      · exact List.Nodup.cons hidns h.settled_nodup
      · intro k hk
        simp only [List.map_cons, List.mem_cons] at hk
        rcases hk with hk | hk
        · exact hk ▸ not_mem_keys_removeEntry h.pending_nodup
        · intro hc
          exact h.disjoint k hk (mem_keys_removeEntry hc)
      · intro p hp
        exact h.timeout_ms p (mem_removeEntry hp)
  | timeout id =>
    simp only [stepBridge, fireTimeout]
    cases hf : findEntry s.pending id with
    | none => exact h
    | some entry =>
      have hidmem : id ∈ s.pending.map Prod.fst :=
        List.mem_map.mpr ⟨(id, entry), findEntry_some_mem hf, rfl⟩
      have hidns : id ∉ s.settled.map Prod.fst := by
        intro hc
        exact h.disjoint id hc hidmem
      constructor
      · intro k hk
        exact h.pending_le k (mem_keys_removeEntry hk)
      · intro k hk
        simp only [List.map_cons, List.mem_cons] at hk
        rcases hk with hk | hk
        · exact hk ▸ h.pending_le id hidmem
        · exact h.settled_le k hk
      · exact (((removeEntry_sublist s.pending id).map Prod.fst).nodup h.pending_nodup)
      · exact List.Nodup.cons hidns h.settled_nodup
      · intro k hk
        simp only [List.map_cons, List.mem_cons] at hk
        rcases hk with hk | hk
        · exact hk ▸ not_mem_keys_removeEntry h.pending_nodup
        · intro hc
          exact h.disjoint k hk (mem_keys_removeEntry hc)
      · intro p hp
        exact h.timeout_ms p (mem_removeEntry hp)

theorem bridgeInv_run (evs : List BridgeEvent) : BridgeInv (runBridge evs) := by
  rw [runBridge]
  induction evs using List.reverseRecOn with
  | nil => exact bridgeInv_initial
  | append_singleton evs e ih =>
    rw [List.foldl_append, List.foldl_cons, List.foldl_nil]
    exact bridgeInv_step ih e

/- ---------------- bridge claim theorems ---------------- -/

/-- Claim C1: over every event sequence of one bridge lifetime, at most one
pending entry exists per correlation id at any instant (the pending keys
are Nodup), each id is settled at most once (the settlement log keys are
Nodup, and a settlement is either a matching Response or the timeout,
recorded atomically with the removal), and once an id has been settled a
further Response or timer expiry for it leaves the state unchanged, so an
entry is never removed twice. -/
theorem bridge_pending_unique (evs : List BridgeEvent) :
    ((runBridge evs).pending.map Prod.fst).Nodup ∧
    ((runBridge evs).settled.map Prod.fst).Nodup ∧
    (∀ k ∈ (runBridge evs).settled.map Prod.fst,
      k ∉ (runBridge evs).pending.map Prod.fst) ∧
    (∀ k, k ∈ (runBridge evs).settled.map Prod.fst →
      (∀ su d er, handleResponse (runBridge evs) k su d er = runBridge evs) ∧
      fireTimeout (runBridge evs) k = runBridge evs) := by
  have h := bridgeInv_run evs
  refine ⟨h.pending_nodup, h.settled_nodup, h.disjoint, ?_⟩
  intro k hk
  have hf : findEntry (runBridge evs).pending k = none :=
    findEntry_eq_none.mpr (h.disjoint k hk)
  constructor
  · intro su d er
    simp [handleResponse, hf]
  · simp [fireTimeout, hf]

/-- A concrete lifetime: one peer, two calls, the first resolved by a
matching Response, the second expired by its timer. -/
def bridgeExampleEvents : List BridgeEvent :=
  [.connect 0, .call "navigate", .call "click",
   .response 1 true "ok" none, .timeout 2]

theorem bridge_pending_unique_witness :
    (1 : Nat) ∈ ((runBridge bridgeExampleEvents).settled.map Prod.fst) ∧
    handleResponse (runBridge bridgeExampleEvents) 1 false "late" none
      = runBridge bridgeExampleEvents :=
  ⟨by decide,
   ((bridge_pending_unique bridgeExampleEvents).2.2.2 1 (by decide)).1 false "late" none⟩

/-- Claim C2: with no peer in the client slot — never connected, or the
previous peer closed and the close handler cleared the slot — a call
rejects synchronously with the connection error and the whole state is
unchanged, so no pending entry is created and nothing remains for a later
peer to resolve. -/
theorem bridge_no_peer_rejects (s : BridgeState) (a : String) :
    (s.client = none →
      sendToExtension s a = (CallStart.connectionError noPeerMsg, s)) ∧
    (∀ c, s.client = some c →
      sendToExtension (handleClose s c) a
        = (CallStart.connectionError noPeerMsg, handleClose s c)) := by
  constructor
  · intro h
    simp [sendToExtension, h]
  · intro c hc
    have hnone : (handleClose s c).client = none := by
      simp [handleClose, hc]
    simp [sendToExtension, hnone]

theorem bridge_no_peer_rejects_witness :
    sendToExtension initialBridge "navigate"
      = (CallStart.connectionError noPeerMsg, initialBridge) :=
  (bridge_no_peer_rejects initialBridge "navigate").1 rfl

/-- Claim C3 counterexample: a failure Response whose payload.error is the
empty string rejects the caller with the message "Unknown error", not with
payload.error, because the handler evaluates
(message.payload.error || "Unknown error") and the empty string is falsy.
So the message does not always equal payload.error. -/
theorem bridge_error_message_cex :
    (runBridge [.connect 0, .call "click", .response 1 false "" (some "")]).settled
      = [(1, Settlement.rejected "Unknown error")] ∧
    ("Unknown error" : String) ≠ "" := by
  constructor
  · decide
  · decide

/-- Claim C3 (amended): with a connected peer, every pending call settles
in exactly one of three ways. Its timer is armed with 30000 ms. A matching
Response with payload.success = true removes the entry and resolves with
payload.data. A matching Response with payload.success = false removes the
entry and rejects with a message equal to payload.error whenever
payload.error is a non-empty string, and with "Unknown error" when
payload.error is absent or empty. Timer expiry removes the entry and
rejects with a timeout error naming the action. -/
theorem bridge_settlement_modes (evs : List BridgeEvent) (id : Nat)
    (e : PendingEntry)
    (hfind : findEntry (runBridge evs).pending id = some e) :
    e.timeoutMs = 30000 ∧
    (∀ d er, handleResponse (runBridge evs) id true d er =
      { runBridge evs with
        pending := removeEntry (runBridge evs).pending id,
        settled := (id, Settlement.resolved d) :: (runBridge evs).settled }) ∧
    (∀ d er, handleResponse (runBridge evs) id false d er =
      { runBridge evs with
        pending := removeEntry (runBridge evs).pending id,
        settled := (id, Settlement.rejected (errMsgOf er))
                   :: (runBridge evs).settled }) ∧
    (∀ m : String, m ≠ "" → errMsgOf (some m) = m) ∧
    errMsgOf none = "Unknown error" ∧
    fireTimeout (runBridge evs) id =
      { runBridge evs with
        pending := removeEntry (runBridge evs).pending id,
        settled := (id, Settlement.timedOut ("Request timeout: " ++ e.action))
                   :: (runBridge evs).settled } := by
  refine ⟨(bridgeInv_run evs).timeout_ms (id, e) (findEntry_some_mem hfind),
    ?_, ?_, ?_, rfl, ?_⟩
  · intro d er
    simp [handleResponse, hfind]
  · intro d er
    simp [handleResponse, hfind]
  · intro m hm
    simp [errMsgOf, hm]
  · simp [fireTimeout, hfind]

/-- A lifetime issuing seven requests, so the seventh has wire id req_7 as
in scenario 4 of the specification. -/
def sevenCallEvents : List BridgeEvent :=
  .connect 0 :: List.replicate 7 (.call "click")

theorem bridge_settlement_modes_witness :
    reqId 7 = "req_7" ∧
    findEntry (runBridge sevenCallEvents).pending 7
      = some { action := "click", timeoutMs := 30000 } ∧
    errMsgOf (some "boom") = "boom" ∧
    handleResponse (runBridge sevenCallEvents) 7 false "" (some "boom") =
      { runBridge sevenCallEvents with
        pending := removeEntry (runBridge sevenCallEvents).pending 7,
        settled := (7, Settlement.rejected (errMsgOf (some "boom")))
                   :: (runBridge sevenCallEvents).settled } :=
  ⟨by decide, by decide,
   (bridge_settlement_modes sevenCallEvents 7 ⟨"click", 30000⟩ (by decide)).2.2.2.1
     "boom" (by decide),
   ((bridge_settlement_modes sevenCallEvents 7 ⟨"click", 30000⟩ (by decide)).2.2.1)
     "" (some "boom")⟩

/- ====== CONSOLE LOG BUFFER (transport.ts, injected script 588-650) ====== -/

/-- One entry of window.__agentsCCConsoleLogs. -/
structure ConsoleLog where
  ty : String
  text : String
  timestamp : Nat
  url : Option String
  lineNumber : Option Nat
deriving Repr, DecidableEq

/-- window.__agentsCCMaxLogs. -/
def agentsCCMaxLogs : Nat := 1000

/-- The patched console method body: push the entry, then if the length
exceeds the maximum, shift off the first (oldest) element. -/
def consolePush (buf : List ConsoleLog) (e : ConsoleLog) : List ConsoleLog :=
  let b := buf ++ [e]
  if agentsCCMaxLogs < b.length then b.tail else b

/-- The window error listener body: push the entry. There is no length
check on this path. -/
def errorEventPush (buf : List ConsoleLog) (e : ConsoleLog) : List ConsoleLog :=
  buf ++ [e]

/-- The unhandledrejection listener body: push a synthesised error entry.
There is no length check on this path either. -/
def rejectionPush (buf : List ConsoleLog) (reason : String) (ts : Nat) :
    List ConsoleLog :=
  buf ++ [⟨"error", "Unhandled Promise Rejection: " ++ reason, ts, none, none⟩]

/-- The read in getConsoleLogs: take a copy of the whole buffer and reset
the buffer to empty, in one synchronous script evaluation. -/
def drainConsoleLogs (buf : List ConsoleLog) : List ConsoleLog × List ConsoleLog :=
  (buf, [])

/-- A throwaway log entry for concrete counterexamples. -/
def sampleLog : ConsoleLog := ⟨"log", "x", 0, none, none⟩

/-- Claim C4 counterexample: the cap is enforced only inside the patched
console methods. The window error listener pushes without any length
check, so appending a 1001st entry through it leaves 1001 entries in the
buffer — the buffer is not bounded by 1000 and nothing is evicted on that
path. -/
theorem console_cap_cex :
    (errorEventPush (List.replicate 1000 sampleLog) sampleLog).length = 1001 ∧
    1000 < (errorEventPush (List.replicate 1000 sampleLog) sampleLog).length := by
  constructor
  · simp only [errorEventPush, List.length_append, List.length_replicate,
      List.length_singleton]
  · simp only [errorEventPush, List.length_append, List.length_replicate,
      List.length_singleton]
    omega

/-- Claim C4 (amended): entries appended through the patched console
methods keep the buffer at 1000 entries or fewer, and a push onto a full
buffer of 1000 evicts exactly the oldest entry; but entries appended by
the error and unhandledrejection listeners bypass the cap, so the buffer
can exceed 1000. Every read returns the entire current buffer and leaves
it empty, as one atomic drain-and-clear step. -/
theorem console_ring_behavior (buf : List ConsoleLog) (e : ConsoleLog)
    (r : String) (ts : Nat) (hle : buf.length ≤ 1000) :
    (consolePush buf e).length ≤ 1000 ∧
    (buf.length = 1000 → consolePush buf e = buf.tail ++ [e]) ∧
    (errorEventPush buf e).length = buf.length + 1 ∧
    (rejectionPush buf r ts).length = buf.length + 1 ∧
    drainConsoleLogs buf = (buf, []) := by
  refine ⟨?_, ?_, by simp [errorEventPush], by simp [rejectionPush], rfl⟩
  · simp only [consolePush]
    split
    · simp only [List.length_tail, List.length_append, List.length_singleton]
      omega
    · next h =>
      simp only [agentsCCMaxLogs, not_lt, List.length_append,
        List.length_singleton] at h
      simp only [List.length_append, List.length_singleton]
      omega
  · intro hfull
    have hne : buf ≠ [] := by
      intro hnil
      rw [hnil] at hfull
      simp at hfull
    have hgt : agentsCCMaxLogs < (buf ++ [e]).length := by
      simp [agentsCCMaxLogs, hfull]
    simp only [consolePush, if_pos hgt]
    exact List.tail_append_of_ne_nil hne

theorem console_ring_behavior_witness :
    (consolePush (List.replicate 1000 sampleLog) sampleLog).length ≤ 1000 ∧
    drainConsoleLogs (List.replicate 1000 sampleLog)
      = (List.replicate 1000 sampleLog, []) :=
  ⟨(console_ring_behavior (List.replicate 1000 sampleLog) sampleLog "r" 0
      (by simp only [List.length_replicate, le_refl])).1,
   (console_ring_behavior (List.replicate 1000 sampleLog) sampleLog "r" 0
      (by simp only [List.length_replicate, le_refl])).2.2.2.2⟩

/- ========= SESSION TRANSPORT (transport.ts, ExtensionTransport) ========= -/

/-- State of one ExtensionTransport: the bound tab, the attached flag, the
registered event callbacks (by identity), whether the chrome.debugger
listeners are installed, and a count of calls made to the host attach. -/
structure TransportState where
  tabId : Nat
  attached : Bool
  eventListeners : List Nat
  debuggerListenersInstalled : Bool
  hostAttachCount : Nat
deriving Repr, DecidableEq

/-- The constructor: new ExtensionTransport(tabId). -/
def mkTransport (tabId : Nat) : TransportState := ⟨tabId, false, [], false, 0⟩

/-- Result of chrome.debugger.attach as seen by the caller. -/
inductive HostAttachResult where
  | ok
  | denied (msg : String)
deriving Repr, DecidableEq

/-- Result of chrome.debugger.detach as seen by the caller; the source
catches any rejection, including one reporting an already detached tab. -/
inductive HostDetachResult where
  | ok
  | alreadyDetached (msg : String)
deriving Repr, DecidableEq

/-- Errors surfaced by the transport. -/
inductive TransportError where
  | attachmentError (msg : String)
  | hostError (msg : String)
deriving Repr, DecidableEq

/-- attach (transport.ts 20-29): return at once when already attached;
otherwise call the host attach, and on success set the flag and install
the chrome.debugger listeners. -/
def attach (s : TransportState) (host : HostAttachResult) :
    Except TransportError TransportState :=
  if s.attached then .ok s
  else
    match host with
    | .ok => .ok { s with
        attached := true,
        debuggerListenersInstalled := true,
        hostAttachCount := s.hostAttachCount + 1 }
    | .denied m => .error (.hostError m)

/-- detach (transport.ts 34-46): return at once when already detached;
otherwise remove the listeners, call the host detach inside try/catch so
any host failure is swallowed, and clear the flag. The host result never
changes the outcome. -/
def detach (s : TransportState) (_hostResult : HostDetachResult) : TransportState :=
  if s.attached then
    { s with attached := false, debuggerListenersInstalled := false }
  else s

/-- send (transport.ts 51-63): reject when not attached, otherwise forward
the command to the host and return the host result; a host rejection
propagates. -/
def send (s : TransportState)
    (host : String → Option String → Except String String)
    (method : String) (params : Option String) : Except TransportError String :=
  if s.attached then
    match host method params with
    | .ok r => .ok r
    | .error m => .error (.hostError m)
  else .error (.attachmentError "Debugger not attached")

/-- handleDetach (transport.ts 111-118): a host-initiated detach event for
this tab clears the attached flag; events for other tabs are ignored. -/
def handleDetach (s : TransportState) (sourceTabId : Nat) : TransportState :=
  if sourceTabId = s.tabId then { s with attached := false } else s

/-- Claim C8: attach is idempotent and detach on a detached session is a
no-op. From a detached state, a successful attach leaves the session
attached after exactly one host attach call, and a second attach returns
the same state without consulting the host again. detach on a detached
session returns the state unchanged for every host answer — including a
host report of an already detached tab — and by its type it raises
nothing; moreover the outcome of detach never depends on the host answer. -/
theorem attach_idempotent_detach_noop (s : TransportState)
    (h2 : HostAttachResult) (hd : HostDetachResult)
    (hdet : s.attached = false) :
    (∀ s2, attach s .ok = .ok s2 →
      s2.attached = true ∧
      s2.hostAttachCount = s.hostAttachCount + 1 ∧
      attach s2 h2 = .ok s2) ∧
    detach s hd = s ∧
    (∀ t : TransportState, ∀ hd2 : HostDetachResult, detach t hd = detach t hd2) := by
  refine ⟨?_, by simp [detach, hdet], by intro t hd2; simp [detach]⟩
  intro s2 hs2
  simp only [attach, hdet, Bool.false_eq_true, if_false] at hs2
  have hs2e : s2 = { s with
      attached := true,
      debuggerListenersInstalled := true,
      hostAttachCount := s.hostAttachCount + 1 } := by
    cases hs2
    rfl
  subst hs2e
  refine ⟨rfl, rfl, ?_⟩
  simp [attach]

theorem attach_idempotent_detach_noop_witness :
    attach (mkTransport 5) .ok
      = .ok { mkTransport 5 with
              attached := true,
              debuggerListenersInstalled := true,
              hostAttachCount := 1 } ∧
    attach { mkTransport 5 with
             attached := true,
             debuggerListenersInstalled := true,
             hostAttachCount := 1 } .ok
      = .ok { mkTransport 5 with
              attached := true,
              debuggerListenersInstalled := true,
              hostAttachCount := 1 } ∧
    detach (mkTransport 5) (.alreadyDetached "Detached") = mkTransport 5 :=
  ⟨rfl,
   ((attach_idempotent_detach_noop (mkTransport 5) .ok
      (.alreadyDetached "Detached") rfl).1
      { mkTransport 5 with
        attached := true,
        debuggerListenersInstalled := true,
        hostAttachCount := 1 } rfl).2.2,
   (attach_idempotent_detach_noop (mkTransport 5) .ok
      (.alreadyDetached "Detached") rfl).2.1⟩

/-- Claim C9: whenever the session is not attached — in particular right
after a host-initiated forced detach for this tab flipped the flag — send
rejects with the attachment error instead of forwarding; when attached it
forwards to the host and returns the host result. -/
theorem send_attachment_guard (s : TransportState)
    (host : String → Option String → Except String String)
    (m : String) (p : Option String) :
    (s.attached = false →
      send s host m p = .error (.attachmentError "Debugger not attached")) ∧
    ((handleDetach s s.tabId).attached = false ∧
      send (handleDetach s s.tabId) host m p
        = .error (.attachmentError "Debugger not attached")) ∧
    (∀ r, s.attached = true → host m p = .ok r → send s host m p = .ok r) := by
  refine ⟨?_, ⟨?_, ?_⟩, ?_⟩
  · intro h
    simp [send, h]
  · simp [handleDetach]
  · simp [send, handleDetach]
  · intro r hat hr
    simp [send, hat, hr]

theorem send_attachment_guard_witness :
    send (mkTransport 5) (fun _ _ => .ok "res") "Page.enable" none
      = .error (.attachmentError "Debugger not attached") ∧
    send { mkTransport 5 with attached := true }
      (fun _ _ => .ok "res") "Page.enable" none = .ok "res" :=
  ⟨(send_attachment_guard (mkTransport 5) (fun _ _ => .ok "res")
      "Page.enable" none).1 rfl,
   (send_attachment_guard { mkTransport 5 with attached := true }
      (fun _ _ => .ok "res") "Page.enable" none).2.2 "res" rfl rfl⟩

/- ========= PAGE CONTROLLER: clicking (transport.ts 279-334) ========= -/

/-- One Input.dispatchMouseEvent command as sent by clickAt: the mouseMoved
dispatch carries only type and coordinates; mousePressed and mouseReleased
also carry button and clickCount. -/
structure MouseDispatch where
  kind : String
  x : Rat
  y : Rat
  button : Option String
  clickCount : Option Nat
deriving Repr, DecidableEq

/-- JavaScript default (options.button || \x22left\x22): absent or empty
string falls back to left. -/
def resolveButton : Option String → String
  | some b => if b = "" then "left" else b
  | none => "left"

/-- JavaScript default (options.clickCount || 1): absent or zero falls
back to one. -/
def resolveClickCount : Option Nat → Nat
  | some n => if n = 0 then 1 else n
  | none => 1

/-- clickAt (transport.ts 279-307): dispatch mouseMoved, then mousePressed,
then mouseReleased, all three at the same coordinates. -/
def clickAt (x y : Rat) (button : Option String) (clickCount : Option Nat) :
    List MouseDispatch :=
  [⟨"mouseMoved", x, y, none, none⟩,
   ⟨"mousePressed", x, y, some (resolveButton button),
     some (resolveClickCount clickCount)⟩,
   ⟨"mouseReleased", x, y, some (resolveButton button),
     some (resolveClickCount clickCount)⟩]

/-- The getBoundingClientRect of the queried element, as read by the
injected snippet of clickElement. -/
structure ElementRect where
  left : Rat
  top : Rat
  width : Rat
  height : Rat
deriving Repr, DecidableEq

/-- What the injected snippet reads off the matched element. -/
structure ElementInfo where
  rect : ElementRect
  tagName : String
  textContent : String
deriving Repr, DecidableEq

/-- The centre computed in the snippet:
(rect.left + rect.width / 2, rect.top + rect.height / 2). -/
def elementCenter (r : ElementRect) : Rat × Rat :=
  (r.left + r.width / 2, r.top + r.height / 2)

/-- Outcome of clickElement. -/
inductive ClickOutcome where
  | elementNotFound (msg : String)
  | clicked (events : List MouseDispatch) (tagName : String) (text : String)
deriving Repr, DecidableEq

/-- clickElement (transport.ts 312-334): the injected snippet throws when
document.querySelector finds nothing — surfaced by evaluate as an error
with the snippet text — and otherwise returns the bounding-box centre,
tag name and text; the method then delegates to clickAt at the centre
with no button and no clickCount given. -/
def clickElement (selector : String) (dom : Option ElementInfo) : ClickOutcome :=
  match dom with
  | none => .elementNotFound ("Element not found: " ++ selector)
  | some info =>
    let c := elementCenter info.rect
    .clicked (clickAt c.1 c.2 none none) info.tagName (info.textContent.take 100)

/-- Claim C7: clickElement resolves the bounding-box centre of the matched
element via the evaluated snippet, fails with the element-not-found error
when the selector matches nothing, and otherwise delegates to clickAt,
which dispatches exactly three pointer events in strict order — move,
press, release — all at the same (centre) coordinates. -/
theorem clickElement_center_events (selector : String) (dom : Option ElementInfo) :
    (dom = none →
      clickElement selector dom
        = .elementNotFound ("Element not found: " ++ selector)) ∧
    (∀ info, dom = some info →
      clickElement selector dom =
        .clicked
          [⟨"mouseMoved", info.rect.left + info.rect.width / 2,
             info.rect.top + info.rect.height / 2, none, none⟩,
           ⟨"mousePressed", info.rect.left + info.rect.width / 2,
             info.rect.top + info.rect.height / 2, some "left", some 1⟩,
           ⟨"mouseReleased", info.rect.left + info.rect.width / 2,
             info.rect.top + info.rect.height / 2, some "left", some 1⟩]
          info.tagName (info.textContent.take 100)) := by
  constructor
  · intro h
    simp [clickElement, h]
  · intro info h
    simp [clickElement, h, clickAt, elementCenter, resolveButton,
      resolveClickCount]

/-- A 40 by 20 element at (100, 200), as in scenario 2 of the spec. -/
def searchBoxInfo : ElementInfo :=
  ⟨⟨100, 200, 40, 20⟩, "INPUT", "search"⟩

theorem clickElement_center_events_witness :
    clickElement "#search" (some searchBoxInfo) =
      .clicked
        [⟨"mouseMoved", 120, 210, none, none⟩,
         ⟨"mousePressed", 120, 210, some "left", some 1⟩,
         ⟨"mouseReleased", 120, 210, some "left", some 1⟩]
        "INPUT" "search" := by
  have h := (clickElement_center_events "#search" (some searchBoxInfo)).2
    searchBoxInfo rfl
  rw [h]
  norm_num [searchBoxInfo]
  decide

/- ========= PAGE CONTROLLER: selectOption (transport.ts 510-560) ========= -/

/-- One entry of select.options. -/
structure OptionElement where
  value : String
  text : String
deriving Repr, DecidableEq

/-- The element document.querySelector found for the selector, if any. -/
inductive DomElement where
  | selectEl (opts : List OptionElement)
  | otherEl (tagName : String)
deriving Repr, DecidableEq

/-- The criteria object passed to selectOption; a branch of the generated
snippet is emitted only for the criteria that are supplied. -/
structure SelectCriteria where
  valueCrit : Option String
  textCrit : Option String
  indexCrit : Option Nat
deriving Repr, DecidableEq

/-- Resolution of optionToSelect in the generated snippet: the value branch
runs first; the text branch runs only while optionToSelect is still null;
the index branch runs only while it is still null. An out-of-range index
leaves it null. -/
def resolveOptionToSelect (opts : List OptionElement) (c : SelectCriteria) :
    Option OptionElement :=
  let afterValue : Option OptionElement :=
    match c.valueCrit with
    | some v => opts.find? (fun o => o.value = v)
    | none => none
  let afterText : Option OptionElement :=
    match afterValue with
    | some o => some o
    | none =>
      match c.textCrit with
      | some t => opts.find? (fun o => o.text = t)
      | none => none
  match afterText with
  | some o => some o
  | none =>
    match c.indexCrit with
    | some i => opts.get? i
    | none => none

/-- Outcome of the selectOption snippet. -/
inductive SelectOutcome where
  | notASelect (msg : String)
  | optionNotFound (msg : String)
  | selected (value : String) (text : String) (dispatchedEvents : List String)
deriving Repr, DecidableEq

/-- selectOption (transport.ts 510-560): throw when the queried element is
missing or its tag is not SELECT; resolve the option; throw when none
matched; otherwise set select.value and dispatch a change event followed
by an input event, returning the value and text of the chosen option. -/
def selectOption (selector : String) (el : Option DomElement)
    (c : SelectCriteria) : SelectOutcome :=
  match el with
  | none => .notASelect ("Element is not a SELECT: " ++ selector)
  | some (.otherEl _) => .notASelect ("Element is not a SELECT: " ++ selector)
  | some (.selectEl opts) =>
    match resolveOptionToSelect opts c with
    | none => .optionNotFound "Option not found"
    | some o => .selected o.value o.text ["change", "input"]

/-- One resolution criterion, for stating the priority rule. -/
inductive Criterion where
  | byValue (v : String)
  | byText (t : String)
  | byIndex (i : Nat)
deriving Repr, DecidableEq

/-- What one criterion matches against the options list. -/
def criterionMatch (opts : List OptionElement) : Criterion → Option OptionElement
  | .byValue v => opts.find? (fun o => o.value = v)
  | .byText t => opts.find? (fun o => o.text = t)
  | .byIndex i => opts.get? i

/-- The supplied criteria in priority order: value, then text, then index.
Follows the words of the spec, for comparison with the source
translation. -/
def suppliedCriteria (c : SelectCriteria) : List Criterion :=
  (c.valueCrit.map Criterion.byValue).toList
    ++ (c.textCrit.map Criterion.byText).toList
    ++ (c.indexCrit.map Criterion.byIndex).toList

/-- First criterion in the list that yields a match. Follows the words of
the spec. -/
def firstYield (opts : List OptionElement) : List Criterion → Option OptionElement
  | [] => none
  | cr :: rest =>
    match criterionMatch opts cr with
    | some o => some o
    | none => firstYield opts rest

/-- Claim C6: option resolution follows the priority value, then text, then
index — the resolved option is exactly the one of the first supplied
criterion that yields a match; a non-select target fails with an error, as
does exhausting all supplied criteria without a match; and on success a
change event is dispatched followed by an input event. -/
theorem selectOption_resolution (selector : String) (opts : List OptionElement)
    (c : SelectCriteria) :
    resolveOptionToSelect opts c = firstYield opts (suppliedCriteria c) ∧
    selectOption selector none c
      = .notASelect ("Element is not a SELECT: " ++ selector) ∧
    (∀ tag, selectOption selector (some (.otherEl tag)) c
      = .notASelect ("Element is not a SELECT: " ++ selector)) ∧
    (resolveOptionToSelect opts c = none →
      selectOption selector (some (.selectEl opts)) c
        = .optionNotFound "Option not found") ∧
    (∀ o, resolveOptionToSelect opts c = some o →
      selectOption selector (some (.selectEl opts)) c
        = .selected o.value o.text ["change", "input"]) := by
  refine ⟨?_, rfl, fun tag => rfl, ?_, ?_⟩
  · cases hv : c.valueCrit with
    | none =>
      cases ht : c.textCrit with
      | none =>
        cases hi : c.indexCrit with
        | none =>
          simp [resolveOptionToSelect, firstYield, suppliedCriteria, hv, ht, hi]
        | some i =>
          simp [resolveOptionToSelect, firstYield, suppliedCriteria,
            criterionMatch, hv, ht, hi]
          cases opts[i]? <;> rfl
      | some t =>
        cases hft : opts.find? (fun o => o.text = t) with
        | none =>
          cases hi : c.indexCrit with
          | none =>
            simp [resolveOptionToSelect, firstYield, suppliedCriteria,
              criterionMatch, hv, ht, hi, hft]
          | some i =>
            simp [resolveOptionToSelect, firstYield, suppliedCriteria,
              criterionMatch, hv, ht, hi, hft]
            cases opts[i]? <;> rfl
        | some o =>
          simp [resolveOptionToSelect, firstYield, suppliedCriteria,
            criterionMatch, hv, ht, hft]
    | some v =>
      cases hfv : opts.find? (fun o => o.value = v) with
      | none =>
        cases ht : c.textCrit with
        | none =>
          cases hi : c.indexCrit with
          | none =>
            simp [resolveOptionToSelect, firstYield, suppliedCriteria,
              criterionMatch, hv, ht, hi, hfv]
          | some i =>
            simp [resolveOptionToSelect, firstYield, suppliedCriteria,
              criterionMatch, hv, ht, hi, hfv]
            cases opts[i]? <;> rfl
        | some t =>
          cases hft : opts.find? (fun o => o.text = t) with
          | none =>
            cases hi : c.indexCrit with
            | none =>
              simp [resolveOptionToSelect, firstYield, suppliedCriteria,
                criterionMatch, hv, ht, hi, hfv, hft]
            | some i =>
              simp [resolveOptionToSelect, firstYield, suppliedCriteria,
                criterionMatch, hv, ht, hi, hfv, hft]
              cases opts[i]? <;> rfl
          | some o =>
            simp [resolveOptionToSelect, firstYield, suppliedCriteria,
              criterionMatch, hv, ht, hfv, hft]
      | some o =>
        simp [resolveOptionToSelect, firstYield, suppliedCriteria,
          criterionMatch, hv, hfv]
  · intro h
    simp [selectOption, h]
  · intro o h
    simp [selectOption, h]

/-- Options where value a belongs to text A while a different option has
text B, as in the priority example of the spec. -/
def exampleOptions : List OptionElement := [⟨"a", "A"⟩, ⟨"x", "B"⟩]

theorem selectOption_resolution_witness :
    selectOption "#dd" (some (.selectEl exampleOptions))
      ⟨some "a", some "B", none⟩
      = .selected "a" "A" ["change", "input"] :=
  (selectOption_resolution "#dd" exampleOptions ⟨some "a", some "B", none⟩).2.2.2.2
    ⟨"a", "A"⟩ (by decide)

/- == ACTION EXECUTOR (extension/src/background/index.ts, executeAction) == -/

/-- Errors raised below the tool dispatcher, following the taxonomy of the
specification: the constructors carry the thrown message. -/
inductive PageError where
  | timeoutError (msg : String)
  | evaluationError (msg : String)
  | protocolError (msg : String)
  | attachmentFailure (msg : String)
  | elementNotFoundError (msg : String)
  | otherError (msg : String)
deriving Repr, DecidableEq

/-- The value of page.getPageInfo. -/
structure PageInfo where
  url : String
  title : String
deriving Repr, DecidableEq

/-- The navigate case of executeAction (background/index.ts 112-119),
parameterised over the outcomes of the three awaited page operations: it
throws when url is falsy; an error of navigateTo propagates; the
waitForNavigation outcome is discarded whatever it is, because the source
writes (await page.waitForNavigation().catch(function () {})); an error of
getPageInfo propagates; otherwise the page info is returned. -/
def navigateAction (url : String)
    (nav : Except PageError Unit)
    (wait : Except PageError Unit)
    (info : Except PageError PageInfo) : Except PageError PageInfo :=
  if url = "" then .error (.otherError "URL is required")
  else
    match nav with
    | .error e => .error e
    | .ok _ =>
      match wait with
      | _ =>
        match info with
        | .error e => .error e
        | .ok i => .ok i

/- ====== TOOL DISPATCHER (mcp-server/src/index.ts, CallTool handler) ====== -/

/-- One element of the content array of an MCP tool response. -/
inductive ContentPart where
  | text (t : String)
  | imagePart (dataB64 : String) (mimeType : String)
deriving Repr, DecidableEq

/-- The response envelope returned by the tool-call handler. -/
structure ToolResponse where
  content : List ContentPart
  isErrorFlag : Bool
deriving Repr, DecidableEq

/-- The raw result that sendToExtension resolved with: the screenshot
action resolves with an object carrying image, width and height; every
other action resolves with a generic JSON value, kept abstract as its
serialised text. -/
inductive ToolResult where
  | data (json : String)
  | imageResult (img : String) (width : Nat) (height : Nat)
deriving Repr, DecidableEq

/-- Stands for JSON.stringify(result, null, 2) on the generic path. -/
def renderResult : ToolResult → String
  | .data j => j
  | .imageResult img w h =>
    "image " ++ img ++ " " ++ toString w ++ "x" ++ toString h

/-- The CallToolRequestSchema handler (index.ts 326-373): a rejection from
the bridge or the action is caught and becomes a text response flagged
isError carrying the message; a resolution is special-cased when the tool
is browser_screenshot and the result carries a non-empty image, producing
an image part with mimeType image/png plus a caption from the width and
height fields; every other resolution becomes a JSON text block. The
handler is a total function: it never re-throws. -/
def callToolHandler (name : String) (outcome : Except String ToolResult) :
    ToolResponse :=
  match outcome with
  | .error msg => ⟨[.text ("Error: " ++ msg)], true⟩
  | .ok r =>
    match r with
    | .imageResult img w h =>
      if name = "browser_screenshot" ∧ img ≠ "" then
        ⟨[.imagePart img "image/png",
          .text ("Screenshot captured: " ++ toString w ++ "x" ++ toString h)],
         false⟩
      else ⟨[.text (renderResult r)], false⟩
    | .data j => ⟨[.text (renderResult (.data j))], false⟩

/-- Claim C5 counterexample: with a valid url, a successful navigateTo and
a successful getPageInfo, a TimeoutError thrown by waitForNavigation does
not propagate — the navigate case still resolves successfully, because the
source discards the wait rejection with .catch(function () {}). The load
wait of navigate is not among the best-effort paths the claim excepts
(overlay notifications, eviction-time detach, event-listener cleanup), so
an error below the dispatcher is swallowed silently. -/
theorem navigate_swallow_cex :
    navigateAction "https://example.com" (.ok ())
      (.error (.timeoutError "Navigation timeout"))
      (.ok ⟨"https://example.com/", "Example Domain"⟩)
      = .ok ⟨"https://example.com/", "Example Domain"⟩ ∧
    navigateAction "https://example.com" (.ok ())
      (.error (.timeoutError "Navigation timeout"))
      (.ok ⟨"https://example.com/", "Example Domain"⟩)
      ≠ .error (.timeoutError "Navigation timeout") := by
  constructor
  · rfl
  · intro hcontra
    exact Except.noConfusion hcontra

/-- Claim C5 (amended): the dispatcher converts every rejection into an
error-flagged text response carrying the message and, being a total
function, never throws past that boundary; within the navigate action an
error of navigateTo or of getPageInfo propagates unchanged, but the
outcome of waitForNavigation is always discarded — so the swallowed paths
are the explicitly best-effort ones plus the post-navigate load wait. -/
theorem dispatcher_error_boundary (name msg url : String) (e : PageError)
    (nav : Except PageError Unit) (wait wait2 : Except PageError Unit)
    (info : Except PageError PageInfo) (hurl : url ≠ "") :
    callToolHandler name (.error msg) = ⟨[.text ("Error: " ++ msg)], true⟩ ∧
    navigateAction url (.error e) wait info = .error e ∧
    navigateAction url (.ok ()) wait (.error e) = .error e ∧
    navigateAction url nav wait info = navigateAction url nav wait2 info := by
  refine ⟨rfl, ?_, ?_, ?_⟩
  · simp [navigateAction, hurl]
  · simp [navigateAction, hurl]
  · simp [navigateAction]

theorem dispatcher_error_boundary_witness :
    callToolHandler "browser_click" (.error "Element not found: #missing")
      = ⟨[.text "Error: Element not found: #missing"], true⟩ ∧
    navigateAction "https://example.com"
      (.error (.protocolError "Cannot navigate")) (.ok ()) (.ok ⟨"", ""⟩)
      = .error (.protocolError "Cannot navigate") :=
  ⟨(dispatcher_error_boundary "browser_click" "Element not found: #missing"
      "https://example.com" (.protocolError "Cannot navigate") (.ok ()) (.ok ())
      (.ok ()) (.ok ⟨"", ""⟩) (by decide)).1,
   (dispatcher_error_boundary "browser_click" "Element not found: #missing"
      "https://example.com" (.protocolError "Cannot navigate") (.ok ()) (.ok ())
      (.ok ()) (.ok ⟨"", ""⟩) (by decide)).2.1⟩

/- ===== SCREENSHOT (background executeAction + dispatcher special case) == -/

/-- The image the host returns from Page.captureScreenshot: base64 data
plus the intrinsic pixel dimensions of the encoded image, which the source
never inspects. -/
structure EncodedImage where
  dataB64 : String
  intrinsicWidth : Nat
  intrinsicHeight : Nat
deriving Repr, DecidableEq

/-- The parameter object Page.captureScreenshot sends to the host
(transport.ts 243-254): format defaults to png when absent or empty,
quality is passed through, captureBeyondViewport defaults to true. -/
structure CaptureParams where
  format : String
  quality : Option Nat
  captureBeyondViewport : Bool
deriving Repr, DecidableEq

/-- The defaults applied in Page.captureScreenshot. -/
def captureParamsOf (format : Option String) (quality : Option Nat)
    (beyond : Option Bool) : CaptureParams :=
  ⟨(match format with
    | some f => if f = "" then "png" else f
    | none => "png"),
   quality, beyond.getD true⟩

/-- The resolved value of the screenshot action. -/
structure ScreenshotData where
  image : String
  width : Nat
  height : Nat
deriving Repr, DecidableEq

/-- The screenshot case of executeAction (background/index.ts 165-178): the
requested format, quality and fullPage flag shape only the capture call;
the resolved value takes its image from the captured payload and its width
and height from page.getViewportSize, never from the captured image. -/
def screenshotAction (format : Option String) (quality : Option Nat)
    (fullPage : Option Bool) (captured : EncodedImage)
    (viewport : Nat × Nat) : CaptureParams × ScreenshotData :=
  (captureParamsOf format quality fullPage,
   ⟨captured.dataB64, viewport.1, viewport.2⟩)

/-- Claim C10: for every requested format — jpeg and webp included — a
successful screenshot resolution with a non-empty image yields a dual-part
dispatcher response whose image part declares mimeType image/png, and the
caption carries the viewport width and height from getViewportSize: the
response is entirely independent of the intrinsic dimensions of the
captured image. -/
theorem screenshot_mime_viewport (format : Option String) (quality : Option Nat)
    (fullPage : Option Bool) (captured captured2 : EncodedImage)
    (vw vh : Nat) (himg : captured.dataB64 ≠ "") :
    ((screenshotAction format quality fullPage captured (vw, vh)).2.width = vw ∧
     (screenshotAction format quality fullPage captured (vw, vh)).2.height = vh) ∧
    (captured.dataB64 = captured2.dataB64 →
      screenshotAction format quality fullPage captured (vw, vh)
        = screenshotAction format quality fullPage captured2 (vw, vh)) ∧
    callToolHandler "browser_screenshot"
      (.ok (.imageResult captured.dataB64 vw vh))
      = ⟨[.imagePart captured.dataB64 "image/png",
          .text ("Screenshot captured: " ++ toString vw ++ "x" ++ toString vh)],
         false⟩ := by
  refine ⟨⟨rfl, rfl⟩, ?_, ?_⟩
  · intro hdata
    simp [screenshotAction, hdata]
  · simp [callToolHandler, himg]

theorem screenshot_mime_viewport_witness :
    callToolHandler "browser_screenshot"
      (.ok (.imageResult "iVBORw0KGgo" 1280 720))
      = ⟨[.imagePart "iVBORw0KGgo" "image/png",
          .text ("Screenshot captured: " ++ toString 1280 ++ "x" ++ toString 720)],
         false⟩ :=
  (screenshot_mime_viewport (some "jpeg") (some 80) (some true)
    ⟨"iVBORw0KGgo", 640, 480⟩ ⟨"iVBORw0KGgo", 640, 480⟩ 1280 720
    (by decide)).2.2

end BrowserAgent
